import Mathlib

/-!
Verification of the hue_randomizer repository (src/config.py, src/hue_api.py,
src/randomizer.py) against its natural-language specification.

The development is a shallow embedding of the program:

* CLIP v2 light resources and group resources become Lean structures whose
  optional fields mirror the optional JSON keys the Python code reads with
  `.get`.
* The requests transport is abstracted: every gateway call either returns its
  parsed JSON payload or fails with a `RequestException`; the embedding records
  every outbound call as an `Event`.
* Python exceptions become an explicit `PyErr` type threaded through `Except`;
  in particular an attribute read on the global `config` object of an attribute
  the `Config` class does not define is an `AttributeError`.
* Threads: each light worker is a deterministic function of its own
  environment (`WorkerEnv`: the observed clock values and the observed
  cancellation-token reads); the session concatenates the per-worker event
  lists in spawn order.  Every claim proved below about worker events is
  insensitive to interleaving.
* Numeric values use `ℚ` (Python floats in this program are exact decimals)
  and `ℤ`/`ℕ` for integers.
-/

attribute [local semireducible] Rat.add Rat.sub Rat.mul Rat.inv Rat.ofScientific

/-! ## Python error model -/

/-- The Python exceptions the embedded code can raise. -/
inductive PyErr where
  /-- AttributeError: the named attribute does not exist on the object read. -/
  | attributeError (attr : String)
  /-- requests.exceptions.RequestException raised by the HTTP transport. -/
  | requestException
  /-- A plain Exception constructed with a message. -/
  | genericException (msg : String)
deriving DecidableEq, Repr

/-- Render an error the way the f-strings in randomizer.py interpolate it. -/
def pyErrStr : PyErr → String
  | .attributeError a => "AttributeError: " ++ a
  | .requestException => "RequestException"
  | .genericException m => m

/-! ## Config (src/config.py)

The `Config` class body defines exactly two class attributes loaded from the
environment, one property and one method.  randomizer.py additionally reads
`config.TRANSITION_TIME` (lines 105, 165, 385) and `config.EFFECT_DURATION`
(line 207); neither name is defined anywhere on `Config` (src/config.py lines
11-29 are the whole class, and nothing assigns these attributes), so those
reads raise `AttributeError` at run time. -/

/-- Attribute names the `Config` class defines (src/config.py lines 11-29):
the two environment strings, the BASE_URL property and the validate method. -/
def configAttrNames : List String :=
  ["HUE_BRIDGE_HOST", "HUE_API_KEY", "BASE_URL", "validate"]

/-- Python attribute read `config.<name>` used as a number, as randomizer.py
does for TRANSITION_TIME and EFFECT_DURATION.  When the attribute is undefined
Python raises AttributeError; when it is one of the defined members it is a
string, a property or a method, never a number, so no numeric value exists
either way. -/
def configNumAttr (name : String) : Except PyErr ℚ :=
  if name ∈ configAttrNames then
    .error (.genericException ("config attribute " ++ name ++ " is not numeric"))
  else
    .error (.attributeError name)

/-! ## CLIP v2 light resources (as read by randomizer.py)

Each structure mirrors one nested JSON object; an `Option` field mirrors a key
the Python code reads through `.get` with a default. -/

/-- The `xy` sub-dict of a CLIP v2 color object; the code reads `x`/`y` with
default 0.3 in restore_light_state. -/
structure XYPair where
  x? : Option ℚ
  y? : Option ℚ
deriving DecidableEq, Repr

/-- The `color` object of a light: may carry an `xy` dict. -/
structure ColorDict where
  xy? : Option XYPair
deriving DecidableEq, Repr

/-- The `color_temperature` object of a light: may carry a `mirek` value. -/
structure CTDict where
  mirek? : Option ℕ
deriving DecidableEq, Repr

/-- The `dimming` object of a light: may carry a `brightness` percentage. -/
structure DimmingDict where
  brightness? : Option ℚ
deriving DecidableEq, Repr

/-- The `on` object of a light: may carry the inner `on` boolean. -/
structure OnDict where
  on? : Option Bool
deriving DecidableEq, Repr

/-- A CLIP v2 light resource restricted to the keys randomizer.py reads. -/
structure LightState where
  on? : Option OnDict
  dimming? : Option DimmingDict
  color? : Option ColorDict
  color_temperature? : Option CTDict
  /-- `owner.rtype` of the light; the snapshot pass treats a light whose owner
  rtype is not the string `device` as unreachable. -/
  ownerRtype? : Option String
deriving DecidableEq, Repr

/-- `state.get(quote on, dict()).get(quote on, True)` as used throughout
randomizer.py. -/
def pyGetOnOn (s : LightState) : Bool :=
  ((s.on?.bind (fun d => d.on?)).getD true)

/-- `state.get(quote dimming, dict()).get(quote brightness, 100)`. -/
def pyGetBrightness (s : LightState) : ℚ :=
  ((s.dimming?.bind (fun d => d.brightness?)).getD 100)

/-- `state.get(quote color, dict()).get(quote xy, dict())`; `none` models the
empty-dict default produced when either key is absent. -/
def pyGetColorXY (s : LightState) : Option XYPair :=
  s.color?.bind (fun c => c.xy?)

/-- `state.get(quote color_temperature, dict()).get(quote mirek)`. -/
def pyGetMirek (s : LightState) : Option ℕ :=
  s.color_temperature?.bind (fun c => c.mirek?)

/-- Python truthiness of the dict produced by `pyGetColorXY`: an absent dict is
falsy, a dict with at least one key is truthy. -/
def xyTruthy : Option XYPair → Bool
  | none => false
  | some p => p.x?.isSome || p.y?.isSome

/-- Python truthiness of the value produced by `pyGetMirek`: None and 0 are
falsy. -/
def ctTruthy : Option ℕ → Bool
  | none => false
  | some m => decide (m ≠ 0)

/-- Python truthiness of an optional string (None and the empty string are
falsy). -/
def optStrTruthy : Option String → Bool
  | none => false
  | some s => decide (s ≠ "")

/-- Python `a or b` on optional strings, as in
`grouped_light_id_hint or group_data.get(quote grouped_light_id)`. -/
def pyOrStr (a b : Option String) : Option String :=
  if optStrTruthy a then a else b

/-! ## Numeric helpers mirroring Python builtins -/

/-- Python `int()` truncation toward zero on an exact rational. -/
def pyInt (q : ℚ) : ℤ :=
  if 0 ≤ q then q.floor else q.ceil

/-- Round to the nearest integer with ties to even, Python 3 `round` semantics
on exact values. -/
def roundHalfEven (q : ℚ) : ℤ :=
  let f := q.floor
  let frac := q - (f : ℚ)
  if frac < 1/2 then f
  else if 1/2 < frac then f + 1
  else if f % 2 = 0 then f else f + 1

/-- Python `round(q, 2)` on an exact rational. -/
def pyRound2 (q : ℚ) : ℚ :=
  (roundHalfEven (q * 100) : ℚ) / 100

/-! ## v1-style state dicts and the CLIP v2 payloads the transport sends -/

/-- The v1-style state dict randomizer.py builds (color_state in control_light,
restore_data in restore_light_state); every key is optional because each call
site sets a different subset. -/
structure V1State where
  on? : Option Bool := none
  bri? : Option ℤ := none
  hue? : Option ℤ := none
  sat? : Option ℤ := none
  xy? : Option (ℚ × ℚ) := none
  ct? : Option ℕ := none
  transitiontime? : Option ℚ := none
deriving DecidableEq, Repr

/-- A CLIP v2 PUT payload restricted to the keys this program produces. -/
structure V2State where
  on? : Option Bool := none
  brightness? : Option ℚ := none
  xy? : Option (ℚ × ℚ) := none
  mirek? : Option ℕ := none
  duration_ms? : Option ℚ := none
deriving DecidableEq, Repr

/-- Color constants of src/randomizer.py lines 28-31. -/
def BLUE_HUE : ℤ := 46920

/-- YELLOW_HUE constant (src/randomizer.py line 29). -/
def YELLOW_HUE : ℤ := 12750

/-- MAX_SATURATION constant (src/randomizer.py line 30). -/
def MAX_SATURATION : ℤ := 254

/-- MAX_BRIGHTNESS constant (src/randomizer.py line 31). -/
def MAX_BRIGHTNESS : ℤ := 254

/-- The xy chromaticity the code uses for blue. -/
def blueXY : ℚ × ℚ := (1691/10000, 441/10000)

/-- The xy chromaticity the code uses for yellow. -/
def yellowXY : ℚ × ℚ := (1/2, 1/2)

/-- LightAPI.set_light_state conversion from a v1-style dict to a CLIP v2
payload (src/hue_api.py lines 206-250), clause by clause in source order:
on, bri→dimming, hue/sat→color (blue and yellow get fixed xy, anything else
0.3/0.3), ct→color_temperature, xy→color (overwriting a hue/sat color), and
transitiontime→dynamics in milliseconds. -/
def v1ToV2 (state : V1State) : V2State :=
  let s0 : V2State := {}
  let s1 := match state.on? with
    | some b => { s0 with on? := some b }
    | none => s0
  let s2 := match state.bri? with
    | some bri => { s1 with brightness? := some (pyRound2 (((bri : ℚ) / 254) * 100)) }
    | none => s1
  let s3 := match state.hue?, state.sat? with
    | some hue, some _ =>
        { s2 with xy? := some (if hue = BLUE_HUE then blueXY
                               else if hue = YELLOW_HUE then yellowXY
                               else (3/10, 3/10)) }
    | _, _ => s2
  let s4 := match state.ct? with
    | some m => { s3 with mirek? := some m }
    | none => s3
  let s5 := match state.xy? with
    | some p => { s4 with xy? := some p }
    | none => s4
  match state.transitiontime? with
  | some t => { s5 with duration_ms? := some (t * 100) }
  | none => s5

/-- Python `x in str(group_id)` for the one-character separator string (line
211): substring membership, which for a single character is character
membership. -/
def hasDash (s : String) : Bool :=
  s.data.any (fun c => c = '-')

/-! ## Observable events

Every outbound gateway call and every cancellation-token write is recorded as
one event.  `tokenClear` is in the vocabulary so that the never-cleared
invariant is a statement about traces, but no embedded code emits it, exactly
as no source line calls `stop_event.clear()`. -/

/-- One observable step of the program. -/
inductive Event where
  | getAllRooms
  | getAllZones
  | getZone (id : String)
  | getRoom (id : String)
  | getAllLights
  | putLight (id : String) (payload : V2State)
  | putGrouped (id : String) (payload : V2State)
  | tokenSet
  | tokenClear
deriving DecidableEq, Repr

/-- Events that fetch device or group state from the gateway. -/
def Event.isFetch : Event → Bool
  | .getAllRooms => true
  | .getAllZones => true
  | .getZone _ => true
  | .getRoom _ => true
  | .getAllLights => true
  | _ => false

/-- Events that fetch the merged room/zone name lists (the name-search
roundtrips). -/
def Event.isNameListFetch : Event → Bool
  | .getAllRooms => true
  | .getAllZones => true
  | _ => false

/-- Events that mutate device state. -/
def Event.isPut : Event → Bool
  | .putLight _ _ => true
  | .putGrouped _ _ => true
  | _ => false

/-! ## restore_light_state (src/randomizer.py lines 101-124) -/

/-- The restore_data dict of restore_light_state given the transitiontime
value `tt` (in the source the value comes from `config.TRANSITION_TIME`, whose
read raises before this dict finishes; the fields are factored out so the
selection logic of lines 108-122 is its own definition):
on from the snapshot, brightness rescaled to 0-254 when `dimming` is present,
then the color clause: xy when the snapshot has `color.xy`, else ct from
`color_temperature` (mirek defaulting to 447), else ct 447. -/
def restoreDataFields (original_state : LightState) (tt : ℚ) : V1State :=
  let base : V1State :=
    { on? := some (pyGetOnOn original_state), transitiontime? := some tt }
  let withBri := match original_state.dimming? with
    | some d => { base with bri? := some (pyInt (((d.brightness?.getD 100) / 100) * 254)) }
    | none => base
  match original_state.color?.bind (fun c => c.xy?) with
  | some p => { withBri with xy? := some (p.x?.getD (3/10), p.y?.getD (3/10)) }
  | none =>
    match original_state.color_temperature? with
    | some cd => { withBri with ct? := some (cd.mirek?.getD 447) }
    | none => { withBri with ct? := some 447 }

/-- restore_light_state: builds restore_data (whose transitiontime field reads
`config.TRANSITION_TIME`, src/randomizer.py line 105) and sends it through
set_light_state.  Returns the gateway events issued, or the Python error the
construction raised. -/
def restore_light_state (light_id : String) (original_state : LightState) :
    Except PyErr (List Event) :=
  match configNumAttr "TRANSITION_TIME" with
  | .error e => .error e
  | .ok tt =>
      .ok [Event.putLight light_id (v1ToV2 (restoreDataFields original_state tt))]

/-! ## The light worker: control_light (src/randomizer.py lines 126-193)

The worker is a thread; its interaction with real time and with the shared
stop event is captured by a `WorkerEnv`: the successive values `time.time()`
returns to this thread and the successive results of its stop-event reads
(`stop_event.wait` returning true means the event was set during the wait,
`stop_event.is_set()` in the loop guard is a read as well). -/

/-- Per-worker observation environment. -/
structure WorkerEnv where
  /-- `random.uniform(0.1, MAX_FIRST_COLOR_REDUCTION)` drawn at line 140; its
  only effect is how long the first wait lasts, which the first clock
  observation reflects. -/
  first_yellow_offset : ℚ
  /-- Result of `stop_event.wait(timeout=first_yellow_offset)` at line 145. -/
  stopAtJitterWait : Bool
  /-- Successive `time.time()` observations, starting with line 149. -/
  t : ℕ → ℚ
  /-- Successive stop-event reads after the jitter wait (loop-guard `is_set`
  and the inter-flip `wait`). -/
  stop : ℕ → Bool

/-- How a worker left its loop. -/
inductive WorkerExit where
  /-- stop_event was set during the initial jitter wait (line 145). -/
  | stoppedAtJitter
  /-- duration already exceeded after the jitter wait (line 149). -/
  | durationAtJitter
  /-- the while guard became false (line 158). -/
  | loopDone
  /-- duration exceeded right after a color write (line 173). -/
  | durationMid
  /-- stop_event set during the inter-flip wait (line 187). -/
  | stoppedInWait
  /-- an exception escaped the loop and was logged by the handler at line 190. -/
  | errorLogged (e : PyErr)
  /-- artificial fuel exhaustion of the embedding (never reached in theorems,
  which quantify over all fuel). -/
  | fuelOut
deriving DecidableEq, Repr

/-- Fixed period between color changes, line 137. -/
def color_change_interval : ℚ := 2

/-- The while loop of control_light (lines 158-188).  `ti`/`si` index the next
clock and stop-event observations; `is_blue` and `next_change_time` are the
loop state.  The body builds color_state — whose transitiontime field reads
`config.TRANSITION_TIME` (line 165) — sends it, re-checks the duration,
toggles the color and performs the drift-free wait arithmetic of lines
179-188. -/
def controlLoop (light_id : String) (duration : ℚ) (effect_start : ℚ)
    (brightness : ℤ) (w : WorkerEnv) :
    ℕ → ℕ → ℕ → Bool → ℚ → List Event × WorkerExit
  | 0, _, _, _, _ => ([], .fuelOut)
  | fuel + 1, ti, si, is_blue, next_change_time =>
    if w.t ti - effect_start < duration ∧ w.stop si = false then
      match configNumAttr "TRANSITION_TIME" with
      | .error e => ([], .errorLogged e)
      | .ok tt =>
        let color_state : V1State :=
          { on? := some true
            hue? := some (if is_blue then BLUE_HUE else YELLOW_HUE)
            sat? := some MAX_SATURATION
            bri? := some brightness
            transitiontime? := some tt }
        let ev := Event.putLight light_id (v1ToV2 color_state)
        -- api_call_start / api_call_duration consume t (ti+1) and t (ti+2)
        if w.t (ti + 3) - effect_start ≥ duration then ([ev], .durationMid)
        else
          let is_blue' := ¬ is_blue
          let wait_until := next_change_time
          let next_change_time' := wait_until + color_change_interval
          let time_to_wait := wait_until - w.t (ti + 4)
          if 0 < time_to_wait then
            let remaining_time := duration - (w.t (ti + 5) - effect_start)
            let actual_wait := min time_to_wait remaining_time
            let _ := actual_wait
            if w.stop (si + 1) then ([ev], .stoppedInWait)
            else
              let rest := controlLoop light_id duration effect_start brightness w
                fuel (ti + 6) (si + 2) is_blue' next_change_time'
              (ev :: rest.1, rest.2)
          else
            let rest := controlLoop light_id duration effect_start brightness w
              fuel (ti + 6) (si + 2) is_blue' next_change_time'
            (ev :: rest.1, rest.2)
    else ([], .loopDone)

/-- control_light: jitter wait, duration pre-check (line 149), then the
alternating loop starting with yellow; `next_change_time` is seeded at line
156 from the clock observation after the pre-check.  Exceptions are caught at
line 190 and logged (`errorLogged`), and the worker never restores its own
device. -/
def control_light (light_id : String) (duration : ℚ) (w : WorkerEnv)
    (effect_start : ℚ) (brightness : ℤ) (fuel : ℕ) : List Event × WorkerExit :=
  if w.stopAtJitterWait then ([], .stoppedAtJitter)
  else if w.t 0 - effect_start ≥ duration then ([], .durationAtJitter)
  else controlLoop light_id duration effect_start brightness w
    fuel 2 0 false (w.t 1 + color_change_interval)

/-! ## Group resources (src/hue_api.py) -/

/-- A room/zone dict as built by ZoneAPI/RoomAPI (hue_api.py lines 75-80,
103-107, 134-139, 162-166): name, the `type` tag (present in the get-all
listings, absent from the single-resource results), member light ids and the
optional grouped_light service id. -/
structure GroupData where
  name : String
  type? : Option String := none
  lights : List String
  grouped_light_id? : Option String := none
deriving DecidableEq, Repr

/-! ## The gateway environment

One record holds the responses the bridge would give to each call of a run,
plus the external happenings of the session (per-worker observations, how the
join phase ended, and whether a grouped PUT raises an error that is not a
RequestException — set_grouped_light_state swallows RequestException
internally, hue_api.py lines 271-273). -/

/-- How the spawn/join block of run_effect (lines 310-336) ended. -/
inductive JoinOutcome where
  /-- all joins returned without an exception. -/
  | normal
  /-- KeyboardInterrupt caught at line 328. -/
  | keyboardInterrupt
  /-- some other exception caught at line 333. -/
  | internalError
deriving DecidableEq, Repr

/-- Bridge responses and external events for one run. -/
structure RunEnv where
  /-- GET /resource/room listing (get_all_rooms re-raises RequestException). -/
  roomsList : Except PyErr (List (String × GroupData))
  /-- GET /resource/zone listing. -/
  zonesList : Except PyErr (List (String × GroupData))
  /-- get_zone by id: `none` when the zone is missing or the request failed
  (both return None, hue_api.py lines 108-112). -/
  zoneById : String → Option GroupData
  /-- get_room by id, same convention. -/
  roomById : String → Option GroupData
  /-- get_all_lights batch result (re-raises RequestException). -/
  allLights : Except PyErr (List (String × LightState))
  /-- observation environment of the worker thread for each light id. -/
  worker : String → WorkerEnv
  /-- the `time.time()` taken at line 308 and shared by every worker. -/
  effect_start : ℚ
  /-- how the join phase ended. -/
  joinOutcome : JoinOutcome
  /-- error raised by the instant-start grouped PUT that is not a
  RequestException (none: the call completes, possibly after an internally
  swallowed transport failure). -/
  instantPutRaises : Option PyErr
  /-- same for the batched-restore grouped PUT. -/
  restorePutRaises : Option PyErr

/-- Python dict `base.update(upd)` merge on association lists: keys keep the
insertion order of `base`, values from `upd` override, and keys only in `upd`
follow in their own order. -/
def dictUpdate (base upd : List (String × GroupData)) : List (String × GroupData) :=
  (base.map (fun p => match upd.lookup p.1 with
    | some v => (p.1, v)
    | none => p)) ++
  upd.filter (fun p => (base.lookup p.1).isNone)

/-- get_groups (src/randomizer.py lines 50-59): fetch all rooms, then all
zones, merge, and raise when the merge is empty. -/
def get_groups (env : RunEnv) :
    List Event × Except PyErr (List (String × GroupData)) :=
  match env.roomsList with
  | .error e => ([.getAllRooms], .error e)
  | .ok rooms =>
    match env.zonesList with
    | .error e => ([.getAllRooms, .getAllZones], .error e)
    | .ok zones =>
      let groups := dictUpdate rooms zones
      if groups.isEmpty then
        ([.getAllRooms, .getAllZones], .error (.genericException "No groups found"))
      else ([.getAllRooms, .getAllZones], .ok groups)

/-- find_group_by_name (lines 61-72): first entry whose lowercased name equals
the lowercased query; yields the id and the `type` tag. -/
def find_group_by_name (groups : List (String × GroupData)) (name : String) :
    Option (String × Option String) :=
  match groups.find? (fun p => p.2.name.toLower = name.toLower) with
  | some p => some (p.1, p.2.type?)
  | none => none

/-- get_group_state (lines 74-95): with an explicit type hint a single lookup
whose None result is passed through; without a hint, zone first, then room,
then a generic Exception.  The Except error is the raised exception. -/
def get_group_state (env : RunEnv) (group_id : String) (group_type? : Option String) :
    List Event × Except PyErr (Option GroupData) :=
  if group_type? = some "Zone" then
    ([.getZone group_id], .ok (env.zoneById group_id))
  else if group_type? = some "Room" then
    ([.getRoom group_id], .ok (env.roomById group_id))
  else
    match env.zoneById group_id with
    | some g => ([.getZone group_id], .ok (some g))
    | none =>
      match env.roomById group_id with
      | some g => ([.getZone group_id, .getRoom group_id], .ok (some g))
      | none =>
        ([.getZone group_id, .getRoom group_id],
         .error (.genericException ("Failed to get state for group " ++ group_id)))

/-! ## The restore block of run_effect (src/randomizer.py lines 350-412) -/

/-- The per-state comparison of the difference scan (lines 363-372): a state is
counted identical to the first when all four projections match — on, brightness
(default 100), the color xy dict and the color_temperature mirek value. -/
def stateMatchesFirst (first_on : Bool) (first_brightness : ℚ)
    (first_color : Option XYPair) (first_ct : Option ℕ) (s : LightState) : Bool :=
  decide (pyGetOnOn s = first_on) &&
  decide (pyGetBrightness s = first_brightness) &&
  decide (pyGetColorXY s = first_color) &&
  decide (pyGetMirek s = first_ct)

/-- `all_same = len(differences) == 0` (line 377) over a non-empty snapshot
list headed by `first_state`. -/
def statesAllSame (first_state : LightState) (states_list : List LightState) : Bool :=
  states_list.all
    (stateMatchesFirst (pyGetOnOn first_state) (pyGetBrightness first_state)
      (pyGetColorXY first_state) (pyGetMirek first_state))

/-- The per-device restore loop (lines 400-404 and 408-412): each
restore_light_state call is wrapped in try/except, so a raising call
contributes no events and the loop continues. -/
def individualRestoreLoop (original_states : List (String × LightState)) : List Event :=
  original_states.foldr
    (fun p acc =>
      (match restore_light_state p.1 p.2 with
       | .ok evs => evs
       | .error _ => []) ++ acc) []

/-- The batched restore_state payload of lines 382-392, given the
transitiontime value whose read (config.TRANSITION_TIME * 100, line 385)
actually raises: common on and brightness, dynamics, then color when the
common xy dict is truthy, else color_temperature when the common mirek is
truthy. -/
def batchRestoreState (first_on : Bool) (first_brightness : ℚ)
    (first_color : Option XYPair) (first_ct : Option ℕ) (tt : ℚ) : V2State :=
  let base : V2State :=
    { on? := some first_on
      brightness? := some first_brightness
      duration_ms? := some (tt * 100) }
  if xyTruthy first_color then
    match first_color with
    | some p => { base with xy? := some (p.x?.getD (3/10), p.y?.getD (3/10)) }
    | none => base
  else if ctTruthy first_ct then { base with mirek? := first_ct }
  else base

/-- The whole restore block executed in the finally clause (lines 350-412):
difference scan, then either the batched path (guarded by
`all_same and grouped_light_id`, with a fallback to the individual loop when
the grouped PUT raises) or the individual loop.  The second component is the
exception escaping the finally clause, if any: the batched payload
construction is not inside any try, so its AttributeError propagates. -/
def restoreBlock (original_states : List (String × LightState))
    (grouped_light_id : Option String) (restorePutRaises : Option PyErr) :
    List Event × Option PyErr :=
  match original_states.map (fun p => p.2) with
  | [] => ([], none)
  | first_state :: restStates =>
    if statesAllSame first_state (first_state :: restStates) &&
        optStrTruthy grouped_light_id then
      match configNumAttr "TRANSITION_TIME" with
      | .error e => ([], some e)
      | .ok tt =>
        match grouped_light_id with
        | some g =>
          (match restorePutRaises with
           | none =>
             ([Event.putGrouped g (batchRestoreState (pyGetOnOn first_state)
                (pyGetBrightness first_state) (pyGetColorXY first_state)
                (pyGetMirek first_state) tt)], none)
           | some _ =>
             -- the grouped PUT raised: caught at line 397, fall back
             (Event.putGrouped g (batchRestoreState (pyGetOnOn first_state)
                (pyGetBrightness first_state) (pyGetColorXY first_state)
                (pyGetMirek first_state) tt) ::
                individualRestoreLoop original_states, none))
        | none => ([], none)  -- unreachable under the truthiness guard
    else
      (individualRestoreLoop original_states, none)

/-! ## run_effect (src/randomizer.py lines 195-435) -/

/-- The structured result dicts run_effect returns; each return site sets a
different subset of keys, mirrored by optional fields. -/
structure RunResult where
  success : Bool
  error? : Option String := none
  message? : Option String := none
  group_id? : Option String := none
  group_name? : Option String := none
  duration? : Option ℚ := none
  lights_controlled? : Option ℕ := none
  unreachable_lights? : Option ℕ := none
  total_lights? : Option ℕ := none
  available_groups? : Option (List (String × String × Option String)) := none
deriving DecidableEq, Repr

/-- The outcome and the observable trace of one run, with the trace split by
phase; the full trace is the concatenation of the five segments in order.
Worker events are concatenated in spawn order (every theorem below about them
is order-insensitive).  `outcome` is the returned dict or the uncaught Python
exception. -/
structure RunOut where
  /-- name lookup and group-state resolution calls. -/
  resolveTrace : List Event := []
  /-- the batched snapshot fetch. -/
  snapshotTrace : List Event := []
  /-- the instant-start grouped write. -/
  instantTrace : List Event := []
  /-- per-device writes issued by the workers. -/
  workerTrace : List Event := []
  /-- cancellation-token operations (interrupt handlers and the finally
  clause). -/
  tokenTrace : List Event := []
  /-- events of the restore block. -/
  restoreTrace : List Event := []
  outcome : Except PyErr RunResult
  workersSpawned : ℕ := 0

/-- The snapshot filter of lines 254-268: for each group light id, a light
absent from the batch or whose owner rtype is not `device` goes to the
unreachable list, the rest keep their fetched state, in group order. -/
def snapshotFilter (light_ids : List String)
    (all_lights : List (String × LightState)) :
    List (String × LightState) × List String :=
  light_ids.foldl
    (fun acc lid =>
      match all_lights.lookup lid with
      | none => (acc.1, acc.2 ++ [lid])
      | some st =>
        if st.ownerRtype? ≠ some "device" then (acc.1, acc.2 ++ [lid])
        else (acc.1 ++ [(lid, st)], acc.2))
    ([], [])

/-- The concatenation, in spawn order, of the per-device write lists the
spawned workers issue (lines 311-319 spawn one control_light thread per
reachable light; the session trace collects their events). -/
def workerPhaseTrace (spawned : List String) (duration : ℚ) (env : RunEnv)
    (brightness : ℤ) (fuel : ℕ) : List Event :=
  spawned.foldr
    (fun lid acc =>
      (control_light lid duration (env.worker lid) env.effect_start brightness fuel).1
        ++ acc) []

/-- The instant-start grouped payload of lines 291-297. -/
def instantState (brightness : ℤ) : V2State :=
  { on? := some true
    brightness? := some (pyRound2 (((brightness : ℚ) / 254) * 100))
    xy? := some blueXY
    duration_ms? := some 0 }

/-- The instant-start events of lines 288-298: one grouped write when the
grouped handle (hint or group field) is truthy, none otherwise. -/
def instantTraceOf (glid : Option String) (brightness : ℤ) : List Event :=
  match glid, optStrTruthy glid with
  | some g, true => [.putGrouped g (instantState brightness)]
  | _, _ => []

/-- The part of run_effect from the batched snapshot fetch to the returned
dict (lines 245-435): snapshot filter, fail-fast on an empty reachable map,
instant start, worker spawn/join, the unconditional stop-event set in the
finally clause (preceded by the interrupt handler set when the join phase was
interrupted, lines 328-341), the restore block, and the final result dict. -/
def sessionPhase (group_id group_name : String) (light_ids : List String)
    (gl_from_group : Option String) (duration : ℚ) (brightness : ℤ)
    (glHint : Option String) (env : RunEnv) (fuel : ℕ) : RunOut :=
  match env.allLights with
  | .error e =>
    { snapshotTrace := [.getAllLights]
      outcome := .ok
        { success := false
          error? := some ("Failed to get light states: " ++ pyErrStr e)
          group_id? := some group_id } }
  | .ok all_lights =>
    match (snapshotFilter light_ids all_lights).1 with
    | [] =>
      { snapshotTrace := [.getAllLights]
        outcome := .ok
          { success := false
            error? := some ("No reachable lights found in group " ++ group_name)
            group_id? := some group_id
            total_lights? := some light_ids.length
            unreachable_lights? := some (snapshotFilter light_ids all_lights).2.length } }
    | _ :: _ =>
      if optStrTruthy (pyOrStr glHint gl_from_group) ∧ env.instantPutRaises.isSome then
        -- a non-RequestException from the instant-start PUT propagates before
        -- the try block: no token set, no restore
        { snapshotTrace := [.getAllLights]
          instantTrace := instantTraceOf (pyOrStr glHint gl_from_group) brightness
          outcome := .error (env.instantPutRaises.getD .requestException) }
      else
        let original_states := (snapshotFilter light_ids all_lights).1
        let unreachable_lights := (snapshotFilter light_ids all_lights).2
        let grouped_light_id := pyOrStr glHint gl_from_group
        let instantTrace : List Event := instantTraceOf grouped_light_id brightness
        let spawned := light_ids.filter (fun lid => (original_states.lookup lid).isSome)
        let workerTrace := workerPhaseTrace spawned duration env brightness fuel
        let interrupted := env.joinOutcome ≠ JoinOutcome.normal
        let tokenTrace : List Event :=
          (if interrupted then [.tokenSet] else []) ++ [.tokenSet]
        let restored := restoreBlock original_states grouped_light_id env.restorePutRaises
        let outcome : Except PyErr RunResult :=
          match restored.2 with
          | some e => .error e
          | none =>
            if interrupted then
              .ok { success := false
                    error? := some "Effect was interrupted"
                    group_id? := some group_id
                    group_name? := some group_name
                    lights_controlled? := some spawned.length
                    unreachable_lights? := some unreachable_lights.length
                    message? := some "All lights restored after interruption" }
            else
              .ok { success := true
                    group_id? := some group_id
                    group_name? := some group_name
                    duration? := some duration
                    lights_controlled? := some spawned.length
                    unreachable_lights? := some unreachable_lights.length
                    message? := some ("Randomizer effect completed on " ++ group_name) }
        { snapshotTrace := [.getAllLights]
          instantTrace := instantTrace
          workerTrace := workerTrace
          tokenTrace := tokenTrace
          restoreTrace := restored.1
          outcome := outcome
          workersSpawned := spawned.length }

/-- _format_groups (lines 437-443) over a fetched group listing. -/
def formatGroups (groups : List (String × GroupData)) :
    List (String × String × Option String) :=
  groups.map (fun p => (p.1, p.2.name, p.2.type?))

/-- run_effect (lines 195-435).  Duration defaulting reads
`config.EFFECT_DURATION` when no duration is passed (line 207).  An identifier
without a dash goes through the name lookup (lines 211-223; a failed lookup
returns the not-found dict after _format_groups fetches the listings again);
then get_group_state under a catch restricted to RequestException (lines
226-243), the None result of a hinted lookup hitting `.get` on None, the
no-lights early return, and finally the session phase. -/
def run_effect (group_id_in : String) (duration? : Option ℚ) (brightness : ℤ)
    (group_type? : Option String) (glHint : Option String) (env : RunEnv)
    (fuel : ℕ) : RunOut :=
  match (match duration? with
         | some d => Except.ok d
         | none => configNumAttr "EFFECT_DURATION") with
  | .error e => { outcome := .error e }
  | .ok duration =>
    let nameStep :
        List Event × Except PyErr (Sum RunResult (String × Option String)) :=
      if hasDash group_id_in then ([], .ok (.inr (group_id_in, group_type?)))
      else
        match get_groups env with
        | (evs, .error e) => (evs, .error e)
        | (evs, .ok groups) =>
          match find_group_by_name groups group_id_in with
          | some fid_ftype =>
            (evs, .ok (.inr (fid_ftype.1,
              if optStrTruthy group_type? then group_type? else fid_ftype.2)))
          | none =>
            match get_groups env with
            | (evs2, .error e) => (evs ++ evs2, .error e)
            | (evs2, .ok groups2) =>
              (evs ++ evs2, .ok (.inl
                { success := false
                  error? := some ("Group " ++ group_id_in ++ " not found")
                  available_groups? := some (formatGroups groups2) }))
    match nameStep with
    | (evs, .error e) => { resolveTrace := evs, outcome := .error e }
    | (evs, .ok (.inl r)) => { resolveTrace := evs, outcome := .ok r }
    | (evs, .ok (.inr gid_gt)) =>
      let group_id := gid_gt.1
      match get_group_state env group_id gid_gt.2 with
      | (evs2, .error e) =>
        if e = .requestException then
          { resolveTrace := evs ++ evs2
            outcome := .ok
              { success := false
                error? := some ("Failed to get group state: " ++ pyErrStr e)
                group_id? := some group_id } }
        else { resolveTrace := evs ++ evs2, outcome := .error e }
      | (evs2, .ok none) =>
        -- group_data is None: line 228 calls .get on None
        { resolveTrace := evs ++ evs2, outcome := .error (.attributeError "get") }
      | (evs2, .ok (some gd)) =>
        if gd.lights.isEmpty then
          { resolveTrace := evs ++ evs2
            outcome := .ok
              { success := false
                error? := some ("No lights found in group " ++ gd.name)
                group_id? := some group_id } }
        else
          let sess := sessionPhase group_id gd.name gd.lights gd.grouped_light_id?
            duration brightness glHint env fuel
          { sess with resolveTrace := evs ++ evs2 }

/-- Decidable equality for Except values, used to evaluate run outcomes on
concrete inputs. -/
instance exceptDecEq {e a : Type} [DecidableEq e] [DecidableEq a] :
    DecidableEq (Except e a) := fun x y =>
  match x, y with
  | .ok v, .ok w =>
    if h : v = w then isTrue (by rw [h]) else isFalse (by simp [h])
  | .error v, .error w =>
    if h : v = w then isTrue (by rw [h]) else isFalse (by simp [h])
  | .ok _, .error _ => isFalse (by simp)
  | .error _, .ok _ => isFalse (by simp)

/-! ## Cancellation-token state -/

/-- Token state after one event: set and clear operations write it, everything
else leaves it. -/
def tokenStep (b : Bool) : Event → Bool
  | .tokenSet => true
  | .tokenClear => false
  | _ => b

/-- Token state after a trace, starting unset (threading.Event() is created
unset at line 302). -/
def tokenAfter (ops : List Event) : Bool :=
  ops.foldl tokenStep false

/-- Number of unset-to-set transitions of the token along a trace. -/
def tokenTransitions : Bool → List Event → ℕ
  | _, [] => 0
  | b, e :: rest =>
    (if b = false ∧ tokenStep b e = true then 1 else 0) +
      tokenTransitions (tokenStep b e) rest

/-! ## Concrete fixtures used by counterexamples and witnesses -/

/-- A reachable light with brightness 50 and no color information. -/
def stPlain50 : LightState :=
  { on? := some { on? := some true }
    dimming? := some { brightness? := some 50 }
    color? := none
    color_temperature? := none
    ownerRtype? := some "device" }

/-- A reachable light with brightness 80 and no color information. -/
def stPlain80 : LightState :=
  { on? := some { on? := some true }
    dimming? := some { brightness? := some 80 }
    color? := none
    color_temperature? := none
    ownerRtype? := some "device" }

/-- A reachable light with an xy color. -/
def stXY : LightState :=
  { on? := some { on? := some true }
    dimming? := some { brightness? := some 50 }
    color? := some { xy? := some { x? := some (1/2), y? := some (2/5) } }
    color_temperature? := none
    ownerRtype? := some "device" }

/-- A reachable light with a color-temperature value. -/
def stCT : LightState :=
  { on? := some { on? := some true }
    dimming? := some { brightness? := some 50 }
    color? := none
    color_temperature? := some { mirek? := some 300 }
    ownerRtype? := some "device" }

/-- A light state carrying neither a chromaticity pair nor a color
temperature. -/
def stNoColor : LightState :=
  { on? := some { on? := some true }
    dimming? := none
    color? := none
    color_temperature? := none
    ownerRtype? := some "device" }

/-- A worker whose clock ticks one second per observation from instant 100 and
whose stop event is never set. -/
def wEnv0 : WorkerEnv :=
  { first_yellow_offset := 1/2
    stopAtJitterWait := false
    t := fun k => 100 + k
    stop := fun _ => false }

/-- A two-light zone with a grouped-control handle. -/
def gdTwo : GroupData :=
  { name := "Den"
    type? := some "Zone"
    lights := ["l1", "l2"]
    grouped_light_id? := some "gl1" }

/-- A one-light zone with no grouped-control handle. -/
def gdOne : GroupData :=
  { name := "Nook"
    type? := some "Zone"
    lights := ["l1"]
    grouped_light_id? := none }

/-- Environment: zone id z1-a resolves to `gdTwo`, both lights reachable with
different snapshots, clean join. -/
def envDiff : RunEnv :=
  { roomsList := .ok []
    zonesList := .ok [("z1-a", gdTwo)]
    zoneById := fun i => if i = "z1-a" then some gdTwo else none
    roomById := fun _ => none
    allLights := .ok [("l1", stPlain50), ("l2", stPlain80)]
    worker := fun _ => wEnv0
    effect_start := 100
    joinOutcome := .normal
    instantPutRaises := none
    restorePutRaises := none }

/-- Environment: both lights share the identical snapshot `stPlain50`. -/
def envSame : RunEnv :=
  { envDiff with allLights := .ok [("l1", stPlain50), ("l2", stPlain50)] }

/-- Environment: the batch fetch returns no lights at all, so every group
light is unreachable. -/
def envUnreach : RunEnv :=
  { envDiff with allLights := .ok [] }

/-- Environment: one-light group without a grouped handle. -/
def envOne : RunEnv :=
  { envDiff with
    zonesList := .ok [("z1-a", gdOne)]
    zoneById := fun i => if i = "z1-a" then some gdOne else none
    allLights := .ok [("l1", stPlain50)] }


/-! ## Basic lemmas about the embedded code -/

/-- The TRANSITION_TIME read on config raises AttributeError: the name is not
among the attributes the Config class defines. -/
theorem configNumAttr_TRANSITION_TIME :
    configNumAttr "TRANSITION_TIME" =
      Except.error (PyErr.attributeError "TRANSITION_TIME") := rfl

/-- The EFFECT_DURATION read on config raises AttributeError as well. -/
theorem configNumAttr_EFFECT_DURATION :
    configNumAttr "EFFECT_DURATION" =
      Except.error (PyErr.attributeError "EFFECT_DURATION") := rfl

/-- Every call of restore_light_state raises the TRANSITION_TIME
AttributeError while building restore_data, before reaching set_light_state. -/
theorem restore_light_state_error (lid : String) (st : LightState) :
    restore_light_state lid st =
      Except.error (PyErr.attributeError "TRANSITION_TIME") := by
  unfold restore_light_state
  rw [configNumAttr_TRANSITION_TIME]

/-- The worker loop issues no gateway write, and when it ends by logging an
exception that exception is the TRANSITION_TIME AttributeError raised by the
color_state construction. -/
theorem controlLoop_no_writes (lid : String) (dur es : ℚ) (bri : ℤ)
    (w : WorkerEnv) (fuel ti si : ℕ) (ib : Bool) (nct : ℚ) :
    (controlLoop lid dur es bri w fuel ti si ib nct).1 = [] ∧
    ∀ e, (controlLoop lid dur es bri w fuel ti si ib nct).2 =
        WorkerExit.errorLogged e →
      e = PyErr.attributeError "TRANSITION_TIME" := by
  cases fuel with
  | zero =>
    refine ⟨rfl, fun e h => ?_⟩
    simp [controlLoop] at h
  | succ n =>
    rw [controlLoop, configNumAttr_TRANSITION_TIME]
    constructor
    · split <;> rfl
    · intro e h
      split at h
      · simp only at h
        injection h with h
        exact h.symm
      · simp at h

/-- control_light never issues a gateway write: the only path to a write goes
through the color_state construction, which raises first. -/
theorem control_light_no_writes (lid : String) (dur : ℚ) (w : WorkerEnv)
    (es : ℚ) (bri : ℤ) (fuel : ℕ) :
    (control_light lid dur w es bri fuel).1 = [] := by
  unfold control_light
  split
  · rfl
  · split
    · rfl
    · exact (controlLoop_no_writes lid dur es bri w fuel 2 0 false
        (w.t 1 + color_change_interval)).1

/-- When a control_light run logs an exception out of its loop, that exception
is the TRANSITION_TIME AttributeError. -/
theorem control_light_error_is_attribute (lid : String) (dur : ℚ) (w : WorkerEnv)
    (es : ℚ) (bri : ℤ) (fuel : ℕ) (e : PyErr)
    (h : (control_light lid dur w es bri fuel).2 = WorkerExit.errorLogged e) :
    e = PyErr.attributeError "TRANSITION_TIME" := by
  unfold control_light at h
  split at h
  · simp at h
  · split at h
    · simp at h
    · exact (controlLoop_no_writes lid dur es bri w fuel 2 0 false
        (w.t 1 + color_change_interval)).2 e h

/-- A worker given an already-expired duration exits at the jitter wait or at
the duration pre-check, before any loop iteration. -/
theorem control_light_expired (lid : String) (dur : ℚ) (w : WorkerEnv)
    (es : ℚ) (bri : ℤ) (fuel : ℕ) (h : dur ≤ w.t 0 - es) :
    (control_light lid dur w es bri fuel).1 = [] ∧
    ((control_light lid dur w es bri fuel).2 = WorkerExit.stoppedAtJitter ∨
     (control_light lid dur w es bri fuel).2 = WorkerExit.durationAtJitter) := by
  unfold control_light
  split
  · exact ⟨rfl, Or.inl rfl⟩
  · exact ⟨rfl, Or.inr rfl⟩

/-- The per-device restore loop issues no events: every restore_light_state
call raises and is swallowed by the surrounding try/except. -/
theorem individualRestoreLoop_nil (original_states : List (String × LightState)) :
    individualRestoreLoop original_states = [] := by
  induction original_states with
  | nil => rfl
  | cons p rest ih =>
    unfold individualRestoreLoop at ih ⊢
    rw [List.foldr_cons, restore_light_state_error p.1 p.2, ih]
    rfl

/-- The worker phase issues no events at all (each worker issues none). -/
theorem workerPhaseTrace_nil (spawned : List String) (dur : ℚ) (env : RunEnv)
    (bri : ℤ) (fuel : ℕ) :
    workerPhaseTrace spawned dur env bri fuel = [] := by
  induction spawned with
  | nil => rfl
  | cons lid rest ih =>
    unfold workerPhaseTrace at ih ⊢
    rw [List.foldr_cons, control_light_no_writes, ih]
    rfl

/-- Whenever the restore block takes the batched branch (all snapshots scan as
identical and the grouped handle is truthy), the restore_state construction
raises the TRANSITION_TIME AttributeError out of the finally clause and no
gateway call is issued. -/
theorem restoreBlock_batched_raises (l0 : String) (s0 : LightState)
    (rest : List (String × LightState)) (glid : Option String)
    (rpr : Option PyErr)
    (hSame : statesAllSame s0 (s0 :: rest.map (fun p => p.2)) = true)
    (hGl : optStrTruthy glid = true) :
    restoreBlock ((l0, s0) :: rest) glid rpr =
      ([], some (PyErr.attributeError "TRANSITION_TIME")) := by
  unfold restoreBlock
  rw [List.map_cons]
  simp only [hSame, hGl, Bool.and_self, if_true, configNumAttr_TRANSITION_TIME]

/-- When the difference scan finds a mismatch or the grouped handle is falsy,
the restore block runs the per-device loop, whose calls all raise and are
swallowed, so it issues no events and no exception escapes the finally
clause. -/
theorem restoreBlock_individual (l0 : String) (s0 : LightState)
    (rest : List (String × LightState)) (glid : Option String)
    (rpr : Option PyErr)
    (hCond : (statesAllSame s0 (s0 :: rest.map (fun p => p.2)) &&
      optStrTruthy glid) = false) :
    restoreBlock ((l0, s0) :: rest) glid rpr = ([], none) := by
  unfold restoreBlock
  rw [List.map_cons]
  simp only [hCond, if_false, Bool.false_eq_true]
  rw [individualRestoreLoop_nil]

/-- The worker segment of a session is either empty (an early return) or the
concatenated trace of the spawned workers. -/
theorem sessionPhase_workerTrace_shape (gid gname : String) (lids : List String)
    (glg : Option String) (dur : ℚ) (bri : ℤ) (glHint : Option String)
    (env : RunEnv) (fuel : ℕ) :
    (sessionPhase gid gname lids glg dur bri glHint env fuel).workerTrace = [] ∨
    ∃ sp, (sessionPhase gid gname lids glg dur bri glHint env fuel).workerTrace =
      workerPhaseTrace sp dur env bri fuel := by
  unfold sessionPhase
  split
  · exact Or.inl rfl
  · split
    · exact Or.inl rfl
    · split
      · exact Or.inl rfl
      · exact Or.inr ⟨_, rfl⟩

/-- In a session that reaches the worker phase (snapshots fetched, at least one
reachable light, no exception from the instant-start write), the
cancellation-token trace is the interrupt-handler set (present exactly on
interrupted or erroring joins) followed by the unconditional finally-clause
set. -/
theorem sessionPhase_tokenTrace_main (gid gname : String) (lids : List String)
    (glg : Option String) (dur : ℚ) (bri : ℤ) (glHint : Option String)
    (env : RunEnv) (fuel : ℕ) (L : List (String × LightState))
    (p : String × LightState) (rest : List (String × LightState))
    (hA : env.allLights = Except.ok L)
    (hCl : (snapshotFilter lids L).1 = p :: rest)
    (hI : env.instantPutRaises = none) :
    (sessionPhase gid gname lids glg dur bri glHint env fuel).tokenTrace =
      (if env.joinOutcome ≠ JoinOutcome.normal then [Event.tokenSet] else []) ++
        [Event.tokenSet] := by
  unfold sessionPhase
  rw [hA]
  simp only [hCl, hI, Option.isSome_none, Bool.false_eq_true, and_false, if_false]

/-- Spawned workers with an already-expired duration produce no events: each
worker exits at its jitter wait or at the duration pre-check. -/
theorem workerPhaseTrace_expired (spawned : List String) (dur : ℚ) (env : RunEnv)
    (bri : ℤ) (fuel : ℕ)
    (ht : ∀ lid, dur ≤ (env.worker lid).t 0 - env.effect_start) :
    workerPhaseTrace spawned dur env bri fuel = [] := by
  induction spawned with
  | nil => rfl
  | cons lid rest ih =>
    unfold workerPhaseTrace at ih ⊢
    rw [List.foldr_cons,
      (control_light_expired lid dur (env.worker lid) env.effect_start bri fuel
        (ht lid)).1, ih]
    rfl

/-! ## Claim theorems -/

/-- C4: Every construction of a per-device write payload — in the worker loop
and in the per-device restore — reads config.TRANSITION_TIME, which the Config
class does not define.  Consequently (i) the worker loop issues zero gateway
writes, (ii) any exception a worker logs out of its loop is that
AttributeError, (iii) every restore_light_state call raises that AttributeError
before any write, and (iv) whenever the restore block takes the batched branch
its payload construction raises the same AttributeError inside the finally
clause with zero gateway calls issued. -/
theorem c4_transition_time_attribute_error :
    (∀ lid dur w es bri fuel, (control_light lid dur w es bri fuel).1 = []) ∧
    (∀ lid dur w es bri fuel e,
      (control_light lid dur w es bri fuel).2 = WorkerExit.errorLogged e →
      e = PyErr.attributeError "TRANSITION_TIME") ∧
    (∀ lid st, restore_light_state lid st =
      Except.error (PyErr.attributeError "TRANSITION_TIME")) ∧
    (∀ l0 s0 rest glid rpr,
      statesAllSame s0 (s0 :: rest.map (fun p => p.2)) = true →
      optStrTruthy glid = true →
      restoreBlock ((l0, s0) :: rest) glid rpr =
        ([], some (PyErr.attributeError "TRANSITION_TIME"))) :=
  ⟨fun lid dur w es bri fuel => control_light_no_writes lid dur w es bri fuel,
   fun lid dur w es bri fuel e h =>
     control_light_error_is_attribute lid dur w es bri fuel e h,
   fun lid st => restore_light_state_error lid st,
   fun l0 s0 rest glid rpr hSame hGl =>
     restoreBlock_batched_raises l0 s0 rest glid rpr hSame hGl⟩

/-- C4 witness: the statement instantiated at a concrete worker, a concrete
snapshot and a concrete two-light batched-restore input. -/
theorem c4_witness :
    (control_light "l1" 5 wEnv0 100 254 3).1 = [] ∧
    restore_light_state "l1" stXY =
      Except.error (PyErr.attributeError "TRANSITION_TIME") ∧
    restoreBlock [("l1", stPlain50), ("l2", stPlain50)] (some "gl1") none =
      ([], some (PyErr.attributeError "TRANSITION_TIME")) :=
  ⟨c4_transition_time_attribute_error.1 "l1" 5 wEnv0 100 254 3,
   c4_transition_time_attribute_error.2.2.1 "l1" stXY,
   c4_transition_time_attribute_error.2.2.2 "l1" stPlain50 [("l2", stPlain50)]
     (some "gl1") none (by decide) (by decide)⟩

/-- C9: With a requested duration of 0 every worker issues zero color writes —
it exits at its jitter wait or at the duration pre-check, before the loop —
and the session's worker segment is empty, so nothing separates the effect
start from the restore pass.  The clock hypothesis says time does not run
backwards between the shared start instant and the worker's first reading. -/
theorem c9_zero_duration_zero_flips :
    (∀ lid w es bri fuel, es ≤ w.t 0 →
      (control_light lid 0 w es bri fuel).1 = [] ∧
      ((control_light lid 0 w es bri fuel).2 = WorkerExit.stoppedAtJitter ∨
       (control_light lid 0 w es bri fuel).2 = WorkerExit.durationAtJitter)) ∧
    (∀ gid gname lids glg bri glHint env fuel,
      (∀ lid, env.effect_start ≤ (env.worker lid).t 0) →
      (sessionPhase gid gname lids glg 0 bri glHint env fuel).workerTrace = []) := by
  constructor
  · intro lid w es bri fuel h
    exact control_light_expired lid 0 w es bri fuel (by linarith)
  · intro gid gname lids glg bri glHint env fuel ht
    rcases sessionPhase_workerTrace_shape gid gname lids glg 0 bri glHint env fuel with
      h | ⟨sp, h⟩
    · exact h
    · rw [h]
      exact workerPhaseTrace_expired sp 0 env bri fuel
        (fun lid => by linarith [ht lid])

/-- C9 witness: the statement instantiated at a concrete worker and a concrete
session. -/
theorem c9_witness :
    (control_light "l1" 0 wEnv0 100 254 3).1 = [] ∧
    (sessionPhase "z1-a" "Den" ["l1", "l2"] (some "gl1") 0 254 none envDiff 3).workerTrace
      = [] :=
  ⟨(c9_zero_duration_zero_flips.1 "l1" wEnv0 100 254 3 (by norm_num [wEnv0])).1,
   c9_zero_duration_zero_flips.2 "z1-a" "Den" ["l1", "l2"] (some "gl1") 254 none
     envDiff 3 (fun _ => by norm_num [envDiff, wEnv0])⟩

/-- C7: In every session that reaches the worker phase, whatever the join
outcome (normal expiry, external interrupt, or internal error), the
cancellation token goes from unset to set exactly once, no clear operation
ever appears in the trace, and the token ends (and therefore stays) set. -/
theorem c7_token_set_once (gid gname : String) (lids : List String)
    (glg : Option String) (dur : ℚ) (bri : ℤ) (glHint : Option String)
    (env : RunEnv) (fuel : ℕ) (L : List (String × LightState))
    (p : String × LightState) (rest : List (String × LightState))
    (hA : env.allLights = Except.ok L)
    (hCl : (snapshotFilter lids L).1 = p :: rest)
    (hI : env.instantPutRaises = none) :
    tokenTransitions false
      (sessionPhase gid gname lids glg dur bri glHint env fuel).tokenTrace = 1 ∧
    Event.tokenClear ∉
      (sessionPhase gid gname lids glg dur bri glHint env fuel).tokenTrace ∧
    tokenAfter (sessionPhase gid gname lids glg dur bri glHint env fuel).tokenTrace
      = true := by
  rw [sessionPhase_tokenTrace_main gid gname lids glg dur bri glHint env fuel L p
    rest hA hCl hI]
  cases env.joinOutcome <;> simp <;> decide

/-- C7 witness: the statement instantiated at a concrete session with two
reachable lights. -/
theorem c7_witness :
    tokenTransitions false
      (sessionPhase "z1-a" "Den" ["l1", "l2"] (some "gl1") 5 254 none envDiff 3).tokenTrace
      = 1 ∧
    Event.tokenClear ∉
      (sessionPhase "z1-a" "Den" ["l1", "l2"] (some "gl1") 5 254 none envDiff 3).tokenTrace ∧
    tokenAfter
      (sessionPhase "z1-a" "Den" ["l1", "l2"] (some "gl1") 5 254 none envDiff 3).tokenTrace
      = true :=
  c7_token_set_once "z1-a" "Den" ["l1", "l2"] (some "gl1") 5 254 none envDiff 3
    [("l1", stPlain50), ("l2", stPlain80)] ("l1", stPlain50) [("l2", stPlain80)]
    rfl (by decide) rfl

/-- C6: A session whose snapshot pass classifies no light as reachable fails
fast: it returns a non-success result carrying the total and unreachable
counts, spawns zero workers, and issues no device write (its whole trace is
the one snapshot fetch). -/
theorem c6_empty_reachable_fails_fast (gid gname : String) (lids : List String)
    (glg : Option String) (dur : ℚ) (bri : ℤ) (glHint : Option String)
    (env : RunEnv) (fuel : ℕ) (L : List (String × LightState))
    (hA : env.allLights = Except.ok L)
    (hEmpty : (snapshotFilter lids L).1 = []) :
    sessionPhase gid gname lids glg dur bri glHint env fuel =
      { snapshotTrace := [Event.getAllLights]
        outcome := Except.ok
          { success := false
            error? := some ("No reachable lights found in group " ++ gname)
            group_id? := some gid
            total_lights? := some lids.length
            unreachable_lights? := some (snapshotFilter lids L).2.length }
        workersSpawned := 0 } := by
  unfold sessionPhase
  rw [hA]
  simp only [hEmpty]

/-- C6 witness: a concrete two-light group none of whose lights appears in the
batch fetch. -/
theorem c6_witness :
    sessionPhase "z1-a" "Den" ["l1", "l2"] (some "gl1") 5 254 none envUnreach 3 =
      { snapshotTrace := [Event.getAllLights]
        outcome := Except.ok
          { success := false
            error? := some "No reachable lights found in group Den"
            group_id? := some "z1-a"
            total_lights? := some 2
            unreachable_lights? := some 2 }
        workersSpawned := 0 } :=
  c6_empty_reachable_fails_fast "z1-a" "Den" ["l1", "l2"] (some "gl1") 5 254 none
    envUnreach 3 [] rfl (by decide)

/-- C5 counterexample: for a snapshot with neither a chromaticity pair nor a
color temperature, the restore payload carries a color-temperature field
(mirek 447) and no hue/saturation fields at all — the claimed hue/saturation
default does not exist in the code. -/
theorem c5_default_not_hue_sat :
    (restoreDataFields stNoColor 0).ct? = some 447 ∧
    (restoreDataFields stNoColor 0).hue? = none ∧
    (restoreDataFields stNoColor 0).sat? = none ∧
    (restoreDataFields stNoColor 0).xy? = none := by
  decide

/-- C5 (amended): the color clause of the individual restore payload gives
precedence to the snapshot's chromaticity pair when present, else uses the
color-temperature object (mirek, defaulting to 447 when the key is absent),
and otherwise falls back to a neutral-white color temperature of 447 — never
to hue/saturation fields. -/
theorem c5_color_precedence :
    (∀ st tt p, st.color?.bind (fun c => c.xy?) = some p →
      (restoreDataFields st tt).xy? =
        some (p.x?.getD (3/10), p.y?.getD (3/10)) ∧
      (restoreDataFields st tt).ct? = none) ∧
    (∀ st tt cd, st.color?.bind (fun c => c.xy?) = none →
      st.color_temperature? = some cd →
      (restoreDataFields st tt).ct? = some (cd.mirek?.getD 447) ∧
      (restoreDataFields st tt).xy? = none) ∧
    (∀ st tt, st.color?.bind (fun c => c.xy?) = none →
      st.color_temperature? = none →
      (restoreDataFields st tt).ct? = some 447 ∧
      (restoreDataFields st tt).xy? = none ∧
      (restoreDataFields st tt).hue? = none ∧
      (restoreDataFields st tt).sat? = none) := by
  refine ⟨?_, ?_, ?_⟩
  · intro st tt p h
    unfold restoreDataFields
    rw [h]
    cases st.dimming? <;> simp
  · intro st tt cd h h2
    unfold restoreDataFields
    rw [h, h2]
    cases st.dimming? <;> simp
  · intro st tt h h2
    unfold restoreDataFields
    rw [h, h2]
    cases st.dimming? <;> simp

/-- C5 witness: the precedence instantiated at an xy snapshot, a
color-temperature snapshot and a colorless snapshot. -/
theorem c5_witness :
    (restoreDataFields stXY 0).xy? = some (1/2, 2/5) ∧
    (restoreDataFields stCT 0).ct? = some 300 ∧
    (restoreDataFields stNoColor 1).ct? = some 447 :=
  ⟨(c5_color_precedence.1 stXY 0 { x? := some (1/2), y? := some (2/5) } rfl).1,
   (c5_color_precedence.2.1 stCT 0 { mirek? := some 300 } rfl rfl).1,
   (c5_color_precedence.2.2 stNoColor 1 rfl rfl).1⟩

/-- C2 counterexample: a session with one reachable device in which the
restore phase re-fetches nothing and issues no write at all — there is no
verification sweep after the primary restore pass. -/
theorem c2_no_sweep_counterexample :
    (sessionPhase "z1-a" "Nook" ["l1"] none 5 254 none envOne 3).workersSpawned = 1 ∧
    (sessionPhase "z1-a" "Nook" ["l1"] none 5 254 none envOne 3).restoreTrace = [] := by
  constructor <;> rfl

/-- C2 (amended): the restore block never fetches device state — there is no
verification sweep; the run ends with the restore block, whose trace consists
of write events only (and, with the TRANSITION_TIME AttributeError, the
per-device pass in fact issues none). -/
theorem c2_restore_never_fetches (original_states : List (String × LightState))
    (glid : Option String) (rpr : Option PyErr) :
    (restoreBlock original_states glid rpr).1.countP Event.isFetch = 0 ∧
    (restoreBlock original_states glid rpr).1.all Event.isPut = true := by
  cases original_states with
  | nil => exact ⟨rfl, rfl⟩
  | cons p rest =>
    unfold restoreBlock
    rw [List.map_cons]
    split
    · next heq => exact absurd heq (by simp)
    · split
      · rw [configNumAttr_TRANSITION_TIME]
        exact ⟨rfl, rfl⟩
      · rw [individualRestoreLoop_nil]
        exact ⟨rfl, rfl⟩

/-- C1 (code evaluated at the failing input): a completed two-light session
whose snapshots differ — the instant-start write mutated the lights, the
result reports success, yet the restore phase issued zero writes, so no
device state was written back. -/
theorem c1_restore_writes_nothing :
    (run_effect "z1-a" (some 5) 254 (some "Zone") none envDiff 3).outcome =
      Except.ok
        { success := true
          group_id? := some "z1-a"
          group_name? := some "Den"
          duration? := some 5
          lights_controlled? := some 2
          unreachable_lights? := some 0
          message? := some "Randomizer effect completed on Den" } ∧
    (run_effect "z1-a" (some 5) 254 (some "Zone") none envDiff 3).restoreTrace = [] ∧
    (run_effect "z1-a" (some 5) 254 (some "Zone") none envDiff 3).instantTrace =
      [Event.putGrouped "gl1" (instantState 254)] :=
  ⟨by decide, by decide, by decide⟩

/-- C3 (code evaluated at the failing input): two pairwise-identical snapshots
and a grouped handle — the batched branch is selected, yet zero batched (and
zero individual) restore calls are issued: the payload construction raises the
TRANSITION_TIME AttributeError out of the finally clause. -/
theorem c3_batched_call_never_issued :
    statesAllSame stPlain50 [stPlain50, stPlain50] = true ∧
    (run_effect "z1-a" (some 5) 254 (some "Zone") none envSame 3).outcome =
      Except.error (PyErr.attributeError "TRANSITION_TIME") ∧
    (run_effect "z1-a" (some 5) 254 (some "Zone") none envSame 3).restoreTrace = [] :=
  ⟨by decide, by decide, by decide⟩

/-- For a dash-bearing identifier the resolution trace of run_effect is
exactly the get_group_state trace: the name-lookup branch is skipped. -/
theorem run_effect_dash_resolveTrace (gid : String) (dur : ℚ) (bri : ℤ)
    (gt? glHint : Option String) (env : RunEnv) (fuel : ℕ)
    (hDash : hasDash gid = true) :
    (run_effect gid (some dur) bri gt? glHint env fuel).resolveTrace =
      (get_group_state env gid gt?).1 := by
  unfold run_effect
  simp only [hDash, if_true]
  split <;> rename_i heq <;> rw [heq] <;> first | rfl | (split <;> simp)

/-- The shapes the get_group_state call trace can take: one zone lookup, one
room lookup, or the zone-then-room fallback; a Zone/Room hint forces a single
lookup, and a successful hintless zone lookup also stops at one call. -/
theorem get_group_state_calls (env : RunEnv) (gid : String) (gt? : Option String) :
    ((get_group_state env gid gt?).1 = [Event.getZone gid] ∨
     (get_group_state env gid gt?).1 = [Event.getRoom gid] ∨
     (get_group_state env gid gt?).1 = [Event.getZone gid, Event.getRoom gid]) ∧
    ((gt? = some "Zone" ∨ gt? = some "Room") →
      ((get_group_state env gid gt?).1 = [Event.getZone gid] ∨
       (get_group_state env gid gt?).1 = [Event.getRoom gid])) ∧
    (gt? = none → (env.zoneById gid).isSome →
      (get_group_state env gid gt?).1 = [Event.getZone gid]) := by
  unfold get_group_state
  by_cases hz : gt? = some "Zone"
  · simp [hz]
  · by_cases hr : gt? = some "Room"
    · simp [hz, hr]
    · simp only [hz, hr, if_false]
      cases hzb : env.zoneById gid with
      | some g => simp [hzb]
      | none =>
        cases hrb : env.roomById gid with
        | some g => simp [hzb, hrb]
        | none => simp [hzb, hrb]

/-- Environment for the C8 counterexample: the identifier is a room id, so the
hintless zone lookup fails and the room lookup succeeds. -/
def envRoomOnly : RunEnv :=
  { envDiff with
    zoneById := fun _ => none
    roomById := fun i => if i = "x-y" then some gdTwo else none }

/-- C8 counterexample: a dash-bearing identifier resolved without a group-kind
hint that names a room incurs two network calls (zone endpoint, then room
endpoint), not exactly one — though still zero name-list fetches. -/
theorem c8_two_calls_counterexample :
    (run_effect "x-y" (some 5) 254 none none envRoomOnly 3).resolveTrace =
      [Event.getZone "x-y", Event.getRoom "x-y"] ∧
    (run_effect "x-y" (some 5) 254 none none envRoomOnly 3).resolveTrace.countP
      Event.isNameListFetch = 0 := by
  constructor <;> decide

/-- C8 (amended): an identifier in opaque-id shape always bypasses name search
(zero name-list fetches) and resolves in at most two network calls; the count
is exactly one when a Zone or Room hint is supplied, or when no hint is given
and the zone endpoint resolves the id, while a hintless identifier the zone
endpoint does not know costs a second, room-endpoint call. -/
theorem c8_opaque_id_resolution (gid : String) (dur : ℚ) (bri : ℤ)
    (gt? glHint : Option String) (env : RunEnv) (fuel : ℕ)
    (hDash : hasDash gid = true) :
    (run_effect gid (some dur) bri gt? glHint env fuel).resolveTrace.countP
      Event.isNameListFetch = 0 ∧
    (run_effect gid (some dur) bri gt? glHint env fuel).resolveTrace.length ≤ 2 ∧
    ((gt? = some "Zone" ∨ gt? = some "Room") →
      (run_effect gid (some dur) bri gt? glHint env fuel).resolveTrace.length = 1) ∧
    (gt? = none → (env.zoneById gid).isSome →
      (run_effect gid (some dur) bri gt? glHint env fuel).resolveTrace.length = 1) := by
  rw [run_effect_dash_resolveTrace gid dur bri gt? glHint env fuel hDash]
  obtain ⟨hshape, hhint, hzone⟩ := get_group_state_calls env gid gt?
  refine ⟨?_, ?_, ?_, ?_⟩
  · rcases hshape with h | h | h <;> rw [h] <;> rfl
  · rcases hshape with h | h | h <;> rw [h] <;> simp
  · intro hh
    rcases hhint hh with h | h <;> rw [h] <;> rfl
  · intro h1 h2
    rw [hzone h1 h2]
    rfl

/-- C8 witness: a Zone-hinted opaque identifier resolves with zero name-list
fetches and exactly one call. -/
theorem c8_witness :
    (run_effect "x-y" (some 5) 254 (some "Zone") none envDiff 3).resolveTrace.countP
      Event.isNameListFetch = 0 ∧
    (run_effect "x-y" (some 5) 254 (some "Zone") none envDiff 3).resolveTrace.length
      ≤ 2 ∧
    ((some "Zone" = some "Zone" ∨ some "Zone" = some "Room") →
      (run_effect "x-y" (some 5) 254 (some "Zone") none envDiff 3).resolveTrace.length
        = 1) ∧
    ((some "Zone" : Option String) = none → (envDiff.zoneById "x-y").isSome →
      (run_effect "x-y" (some 5) 254 (some "Zone") none envDiff 3).resolveTrace.length
        = 1) :=
  c8_opaque_id_resolution "x-y" 5 254 (some "Zone") none envDiff 3 (by decide)

/-- C10: A dash-bearing identifier that matches no zone and no room, with no
group-kind hint, makes run_effect raise the generic Exception from
get_group_state — only RequestException is caught at that call site — so no
structured not-found result (and no available-groups list) is produced, and no
name-list fetch ever happens. -/
theorem c10_unmatched_dash_id_raises (gid : String) (dur : ℚ) (bri : ℤ)
    (glHint : Option String) (env : RunEnv) (fuel : ℕ)
    (hDash : hasDash gid = true)
    (hz : env.zoneById gid = none) (hr : env.roomById gid = none) :
    run_effect gid (some dur) bri none glHint env fuel =
      { resolveTrace := [Event.getZone gid, Event.getRoom gid]
        outcome := Except.error
          (PyErr.genericException ("Failed to get state for group " ++ gid)) } := by
  unfold run_effect
  simp only [hDash, if_true]
  unfold get_group_state
  simp [hz, hr]

/-- C10 witness: the statement instantiated at a concrete unmatched
identifier. -/
theorem c10_witness :
    run_effect "x-y" (some 5) 254 none none envDiff 3 =
      { resolveTrace := [Event.getZone "x-y", Event.getRoom "x-y"]
        outcome := Except.error
          (PyErr.genericException ("Failed to get state for group " ++ "x-y")) } :=
  c10_unmatched_dash_id_raises "x-y" 5 254 none envDiff 3 (by decide) (by decide) rfl
